import Mathlib

/-!
Verification of the Traffic radar-diagram generator (src/Traffic.py).

The program draws a schematic ATC radar training diagram with Python's
turtle library.  We embed the drawing routines as a small command
language `Cmd` over a turtle state `TState` (position, heading, pen
flag, and the list of marks on the screen), with the context managers
`KeepPos`, `PenUp` and `UnbindTurtle` embedded as scoped constructors
whose enter/exit effects follow the Python `with`-statement semantics
(the exit effect runs on both normal and exceptional exit, and an
exception keeps propagating afterwards).

Headings are degrees as passed to `setheading`.  The displacement of a
`forward` move depends on the trigonometric direction vector of the
current heading; the semantics is parametrised by an arbitrary
direction map `vec : ℚ → ℚ × ℚ` standing for that (floating-point)
geometry, so every theorem quantifies over it.  Likewise the triangle
side length `PPS_SIDE * sqrt 3` is irrational and enters only as a
`forward` distance, so programs take it as a parameter `tri`.

The pure random-data helpers (`random_altitudes`, `random_acid`,
`generate_aircraft`, the parity choice in `place_pps`) are embedded as
functions of the values produced by the random draws, together with
explicit lists of the values each Python draw can produce
(`randrange_vals`, `randint_vals`).
-/

namespace Traffic

/-- A visible mark left on the drawing surface: a line segment drawn by a
pen-down move, the circle drawn by `turtle.circle`, or text drawn by
`turtle.write`. -/
inductive Mark where
  | seg : ℚ × ℚ → ℚ × ℚ → Mark
  | arc : ℚ × ℚ → ℚ → Mark
  | txt : ℚ × ℚ → String → Mark
deriving DecidableEq, Repr

/-- The turtle state: cursor position `(x, y)`, current heading in degrees,
whether the pen is down (`pen = true` means moves leave marks), and the
marks currently on the screen. -/
structure TState where
  x : ℚ
  y : ℚ
  heading : ℚ
  pen : Bool
  screen : List Mark
deriving DecidableEq, Repr

/-- The turtle commands used by src/Traffic.py, with the three context
managers as scoped constructors.

* `goto px py` — `turtle.goto`/`turtle.home`-style absolute move;
* `setxPlus dx` — `turtle.setx(pos.x + dx)` in `draw_circle`, where
  `pos.x` is the enclosing checkpoint's captured x, equal to the current
  x because no move happens between the capture and the `setx` call;
* `setheading h`, `forward d`, `backward d` — as in turtle;
* `circle r` — `turtle.circle(r)`: a full circle returns to its starting
  position and heading;
* `write str` — `turtle.write`: renders text, no movement;
* `home` — `turtle.home()`: move to the origin and reset the heading to
  the start orientation;
* `clear` — `turtle.clear()`: erase all marks, no movement;
* `raiseErr` — a drawing call that raises an exception;
* `keepPos body` — `with KeepPos(): body` (lines 242-259);
* `penUp body` — `with PenUp(): body` (lines 230-239);
* `seq`/`skip` — statement sequencing. -/
inductive Cmd where
  | skip : Cmd
  | seq : Cmd → Cmd → Cmd
  | goto : ℚ → ℚ → Cmd
  | setxPlus : ℚ → Cmd
  | setheading : ℚ → Cmd
  | forward : ℚ → Cmd
  | backward : ℚ → Cmd
  | circle : ℚ → Cmd
  | write : String → Cmd
  | home : Cmd
  | clear : Cmd
  | raiseErr : Cmd
  | keepPos : Cmd → Cmd
  | penUp : Cmd → Cmd

/-- Move the cursor to `(px, py)`, leaving a line segment on the screen
exactly when the pen is down. -/
def moveTo (s : TState) (px py : ℚ) : TState :=
  { s with x := px, y := py,
           screen := if s.pen then s.screen ++ [Mark.seg (s.x, s.y) (px, py)]
                     else s.screen }

/-- Run a command.  Returns the final state and an error flag: `true`
when an exception is propagating out of the command.  Scope exits
(`KeepPos.__exit__`, `PenUp.__exit__`) run on every exit path, as in
Python, and then the exception (if any) keeps propagating.
`KeepPos` captures `(x, y, heading)` when the scope is entered (its
`__init__`) and its exit performs `with PenUp(): goto(x, y);
setheading(heading)` — note this leaves the pen down.  `PenUp.__exit__`
likewise puts the pen down unconditionally. -/
def run (vec : ℚ → ℚ × ℚ) : Cmd → TState → TState × Bool
  | Cmd.skip, s => (s, false)
  | Cmd.seq a b, s =>
      let r := run vec a s
      if r.2 then r else run vec b r.1
  | Cmd.goto px py, s => (moveTo s px py, false)
  | Cmd.setxPlus dx, s => (moveTo s (s.x + dx) s.y, false)
  | Cmd.setheading h, s => ({ s with heading := h }, false)
  | Cmd.forward d, s =>
      (moveTo s (s.x + d * (vec s.heading).1) (s.y + d * (vec s.heading).2), false)
  | Cmd.backward d, s =>
      (moveTo s (s.x - d * (vec s.heading).1) (s.y - d * (vec s.heading).2), false)
  | Cmd.circle r, s =>
      ({ s with screen := if s.pen then s.screen ++ [Mark.arc (s.x, s.y) r]
                          else s.screen }, false)
  | Cmd.write str, s =>
      ({ s with screen := s.screen ++ [Mark.txt (s.x, s.y) str] }, false)
  | Cmd.home, s => ({ moveTo s 0 0 with heading := 0 }, false)
  | Cmd.clear, s => ({ s with screen := [] }, false)
  | Cmd.raiseErr, s => (s, true)
  | Cmd.keepPos body, s =>
      -- KeepPos.__init__ : capture (x, y, heading)
      let r := run vec body s
      -- KeepPos.__exit__ : with PenUp(): goto(self.x, self.y);
      --                    setheading(self.heading)
      let s1 := moveTo { r.1 with pen := false } s.x s.y
      ({ s1 with heading := s.heading, pen := true }, r.2)
  | Cmd.penUp body, s =>
      -- PenUp.__enter__ : turtle.penup()
      let r := run vec body { s with pen := false }
      -- PenUp.__exit__ : turtle.pendown()
      ({ r.1 with pen := true }, r.2)

/-! ### Constants (lines 9-28 of src/Traffic.py) -/

def CALLSIGNS : List String :=
  ["ACA", "BAW", "GGN", "NCB", "NWT", "CFC", "JZA",
   "WJA", "UAL", "CRQ", "DAL", "GLR", "DLH", "AFR"]

def PLANE_TYPES : List String :=
  ["A320", "B190", "B747", "CRJ9", "B737", "C500",
   "A340", "GLF5", "E190", "DH8C", "C208", "BE9L"]

/-- Lowest altitude, highest altitude - 10. -/
def ALTITUDE_RANGE : ℕ × ℕ := (90, 290)

def HEADING_RANGE : ℚ × ℚ := (0, 1799999 / 10000)

def PARITIES : List ℤ := [1, -1]

def PPS_SIDE : ℚ := 10

def RADIUS : ℚ := 270

def MILE_LENGTH : ℚ := 40

def SMALLEST_SAME_HEADING_ANGLE : ℚ := 30

def SCALE_BRACKET_TICK_LENGTH : ℚ := 10

def PERCENTAGE_OF_4_DIGIT_FLIGHT_NUMBERS : ℚ := 3 / 10

/-! ### The values the random draws can produce

`random.randrange(start, stop, step)` draws uniformly from
`start, start + step, ...` strictly below `stop`;
`random.randint(lo, hi)` draws uniformly from `lo..hi` inclusive. -/

/-- The possible results of `random.randrange(start, stop, step=step)`
for positive `step`. -/
def randrange_vals (start stop step : ℕ) : List ℕ :=
  (List.range ((stop - start + step - 1) / step)).map (fun k => start + step * k)

/-- The possible results of `random.randint(lo, hi)`. -/
def randint_vals (lo hi : ℕ) : List ℕ :=
  (List.range (hi + 1 - lo)).map (fun k => lo + k)

/-! ### Pure data helpers (lines 31-64 of src/Traffic.py) -/

/-- Python's zero-padding decimal format `f'{n:0wd}'` for a natural
number: the decimal digits of `n`, left-padded with `'0'` to width `w`. -/
def pyFormat (w : ℕ) (n : ℕ) : String :=
  let s := toString n
  String.mk (List.replicate (w - s.length) '0') ++ s

/-- `random_altitudes` (lines 31-37), as a function of the value `a`
produced by `random.randrange(*ALTITUDE_RANGE, step=10)`:
returns `(f'{a:03d}', f'{a+10:03d}')`. -/
def random_altitudes (a : ℕ) : String × String :=
  (pyFormat 3 a, pyFormat 3 (a + 10))

/-- `random_acid` (lines 40-50), as a function of the random draws: the
chosen `callsign`, whether `random.uniform(0, 1)` fell below
`PERCENTAGE_OF_4_DIGIT_FLIGHT_NUMBERS` (the `four` flag), and the value
`n` of the corresponding `random.randint` call — `randint(0000, 9999)`
formatted `f'{n:04d}'` in the `four` branch, `randint(000, 999)`
formatted `f'{n:03d}'` otherwise. -/
def random_acid (callsign : String) (four : Bool) (n : ℕ) : String :=
  callsign ++ (if four then pyFormat 4 n else pyFormat 3 n)

/-- The aircraft record (line 7). -/
structure Aircraft where
  acid : String
  type : String
  heading : ℚ
  altitude : String
  speed : ℕ
deriving DecidableEq, Repr

/-- `generate_aircraft` (lines 52-64), as a function of the two given
headings and the random draws: the two identifiers, the two plane
types, and the altitude-band draw `a` fed to `random_altitudes`. -/
def generate_aircraft (heading_0 heading_1 : ℚ) (acid_0 acid_1 ty_0 ty_1 : String)
    (a : ℕ) : Aircraft × Aircraft :=
  let alts := random_altitudes a
  ({ acid := acid_0, type := ty_0, heading := heading_0,
     altitude := alts.1, speed := 25 },
   { acid := acid_1, type := ty_1, heading := heading_1,
     altitude := alts.2, speed := 25 })

/-! ### The placement heuristic (lines 89-126 of src/Traffic.py) -/

/-- `modified_distance = parity * distance` (line 111): the signed
offset of a glyph from the centre along its heading line. -/
def modified_distance (parity : ℤ) (distance : ℕ) : ℤ :=
  parity * distance

/-- The parity given to the second aircraft (`i == 1`) in `place_pps`
(lines 101-107): if the heading gap `|heading_0 - heading_1|` is
strictly below `SMALLEST_SAME_HEADING_ANGLE`, flip the first parity
(`1 if parity == -1 else -1`); otherwise take a fresh
`random.choice(PARITIES)` draw `draw_1`. -/
def pps_parity_1 (heading_0 heading_1 : ℚ) (parity_0 draw_1 : ℤ) : ℤ :=
  if |heading_0 - heading_1| < SMALLEST_SAME_HEADING_ANGLE then
    (if parity_0 = -1 then 1 else -1)
  else draw_1

/-! ### The drawing routines as `Cmd` programs (lines 67-190) -/

/-- `draw_circle` (lines 67-74). -/
def draw_circle : Cmd :=
  Cmd.keepPos (Cmd.seq (Cmd.penUp (Cmd.setxPlus RADIUS)) (Cmd.circle RADIUS))

/-- One iteration of the loop in `draw_lines` (lines 81-86). -/
def draw_line_one (heading : ℚ) : Cmd :=
  Cmd.keepPos
    (Cmd.seq
      (Cmd.penUp (Cmd.seq (Cmd.setheading heading) (Cmd.forward RADIUS)))
      (Cmd.backward (2 * RADIUS)))

/-- `draw_lines` (lines 77-86). -/
def draw_lines (heading_0 heading_1 : ℚ) : Cmd :=
  Cmd.seq (draw_line_one heading_0) (draw_line_one heading_1)

/-- `draw_hexagon` (lines 128-135). -/
def draw_hexagon : Cmd :=
  ([120, 180, 240, 300, 360, 60] : List ℚ).foldr
    (fun a acc => Cmd.seq (Cmd.seq (Cmd.setheading a) (Cmd.forward PPS_SIDE)) acc)
    Cmd.skip

/-- `draw_triangle` (lines 138-146).  The side length
`PPS_SIDE * sqrt(3)` is irrational, so the program takes it as the
parameter `tri`. -/
def draw_triangle (tri : ℚ) : Cmd :=
  ([150, 270, 30] : List ℚ).foldr
    (fun a acc => Cmd.seq (Cmd.seq (Cmd.setheading a) (Cmd.forward tri)) acc)
    Cmd.skip

/-- `draw_pps` (lines 149-160). -/
def draw_pps (tri : ℚ) : Cmd :=
  Cmd.keepPos
    (Cmd.seq (Cmd.penUp (Cmd.seq (Cmd.setheading 360) (Cmd.forward PPS_SIDE)))
      (Cmd.seq draw_hexagon (draw_triangle tri)))

/-- The data tag written next to a glyph (lines 119-121). -/
def tag (a : Aircraft) : String :=
  a.acid ++ "\n" ++ a.type ++ "\n" ++ a.altitude ++ "    " ++ toString a.speed

/-- One iteration of the loop in `place_pps` (lines 109-125), with the
parity already decided for this aircraft. -/
def place_pps_one (a : Aircraft) (parity : ℤ) (distance : ℕ) (tri : ℚ) : Cmd :=
  Cmd.keepPos
    (Cmd.seq
      (Cmd.penUp (Cmd.seq (Cmd.setheading a.heading)
        (Cmd.forward ((modified_distance parity distance : ℤ) : ℚ))))
      (Cmd.seq (draw_pps tri)
        (Cmd.penUp (Cmd.seq (Cmd.forward ((parity : ℚ) * (RADIUS / 4)))
          (Cmd.write (tag a))))))

/-- `place_pps` (lines 89-125), as a function of the aircraft pair and
the random draws: `distance = random.randint(40, 170)`,
`parity_0 = random.choice(PARITIES)` and, used only when the heading gap
is at or above the threshold, the fresh draw `draw_1`. -/
def place_pps (a_0 a_1 : Aircraft) (distance : ℕ) (parity_0 draw_1 : ℤ)
    (tri : ℚ) : Cmd :=
  Cmd.seq (place_pps_one a_0 parity_0 distance tri)
    (place_pps_one a_1 (pps_parity_1 a_0.heading a_1.heading parity_0 draw_1)
      distance tri)

/-- `draw_scale_bracket` (lines 163-171). -/
def draw_scale_bracket : Cmd :=
  Cmd.seq (Cmd.forward SCALE_BRACKET_TICK_LENGTH)
    (Cmd.seq (Cmd.setheading 90)
      (Cmd.seq (Cmd.forward MILE_LENGTH)
        (Cmd.seq (Cmd.setheading 180)
          (Cmd.forward SCALE_BRACKET_TICK_LENGTH))))

/-- `draw_scale` (lines 174-190), with `scale_start = (-RADIUS, RADIUS)`. -/
def draw_scale : Cmd :=
  Cmd.keepPos
    (Cmd.seq (Cmd.penUp (Cmd.seq (Cmd.goto (-RADIUS) RADIUS) (Cmd.setheading 360)))
      (Cmd.seq draw_scale_bracket
        (Cmd.seq (Cmd.penUp (Cmd.goto (-RADIUS + MILE_LENGTH / 2) (RADIUS + 10)))
          (Cmd.write "1 MILE"))))

/-- `reset` (lines 203-209): clear the screen, `setheading(360)`, and
`home()` (which moves to the origin and resets the heading to the start
orientation). -/
def reset : Cmd :=
  Cmd.seq Cmd.clear (Cmd.seq (Cmd.setheading 360) Cmd.home)

/-- The body of `draw` (lines 212-222) inside the `UnbindTurtle` scope,
as a function of the two random headings, the generated aircraft pair,
and the placement draws. -/
def draw_prog (heading_0 heading_1 : ℚ) (a_0 a_1 : Aircraft)
    (distance : ℕ) (parity_0 draw_1 : ℤ) (tri : ℚ) : Cmd :=
  Cmd.seq reset
    (Cmd.seq draw_circle
      (Cmd.seq (draw_lines heading_0 heading_1)
        (Cmd.seq (place_pps a_0 a_1 distance parity_0 draw_1 tri)
          draw_scale)))

/-! ### The Interaction Guard (lines 193-222, 262-271)

`draw` runs its whole body inside `with UnbindTurtle():`, whose enter
calls `turtle.onscreenclick(None)` (detach) and whose exit calls
`turtle.onscreenclick(draw)` (reattach) — the exit runs on every exit
path of the Python `with` statement.  The drawing surface is the
external event toolkit; its click dispatch is modelled from the spec:
`onClick(handler|none)` — passing `none` detaches, and a delivered
click starts a new Drawing cycle exactly when the handler is bound. -/

/-- The click-binding state of the drawing surface: `bound = true` iff
`draw` is attached as the click handler. -/
structure GuiState where
  bound : Bool
deriving DecidableEq, Repr

/-- Modelled from the spec: the surface's click dispatch — a delivered
click starts a new `Drawing` cycle exactly when the click-to-redraw
handler is currently bound (`onClick(none)` means no handler runs). -/
def clickStarts (s : GuiState) : Bool := s.bound

/-- The events that can occur while the body of `draw` runs: a rendering
primitive that succeeds, one that raises, or a click delivered
synchronously by the surface. -/
inductive GuiEvent where
  | render : GuiEvent
  | renderFail : GuiEvent
  | click : GuiEvent

/-- Run the body of a `Drawing` cycle under a fixed binding state `s`:
returns whether a rendering primitive raised (aborting the rest of the
body) and how many new `Drawing` cycles the delivered clicks started. -/
def runBody : List GuiEvent → GuiState → Bool × ℕ
  | [], _ => (false, 0)
  | GuiEvent.render :: rest, s => runBody rest s
  | GuiEvent.renderFail :: _, _ => (true, 0)
  | GuiEvent.click :: rest, s =>
      let r := runBody rest s
      (r.1, (if clickStarts s then 1 else 0) + r.2)

/-- One `Drawing` cycle: `with UnbindTurtle():` detaches the handler on
entry, the body runs (possibly aborted by a raising primitive), and the
exit reattaches the handler on every exit path. -/
def drawCycle (body : List GuiEvent) (_s : GuiState) : GuiState × Bool × ℕ :=
  -- UnbindTurtle.__enter__ : turtle.onscreenclick(None)
  let s1 : GuiState := { bound := false }
  let r := runBody body s1
  -- UnbindTurtle.__exit__ : turtle.onscreenclick(draw), on every exit path
  ({ bound := true }, r.1, r.2)

/-! ### Helper lemmas about the scope semantics -/

/-- Unfolding lemma for `KeepPos`: whatever the body did — and whether
or not it raised — the exit restores the captured position and heading,
leaves the pen down, keeps the body's screen, and propagates the body's
error flag. -/
theorem run_keepPos (vec : ℚ → ℚ × ℚ) (body : Cmd) (s : TState) :
    run vec (Cmd.keepPos body) s =
      ({ x := s.x, y := s.y, heading := s.heading, pen := true,
         screen := (run vec body s).1.screen }, (run vec body s).2) := by
  simp [run, moveTo]

/-- Unfolding lemma for `PenUp`: the body runs with the pen up and the
exit puts the pen down on every exit path, propagating the body's
error flag. -/
theorem run_penUp (vec : ℚ → ℚ × ℚ) (body : Cmd) (s : TState) :
    run vec (Cmd.penUp body) s =
      ({ (run vec body { s with pen := false }).1 with pen := true },
       (run vec body { s with pen := false }).2) := by
  simp [run]

/-- A command containing no `raiseErr` anywhere. -/
def NoRaise : Cmd → Bool
  | Cmd.raiseErr => false
  | Cmd.seq a b => NoRaise a && NoRaise b
  | Cmd.keepPos body => NoRaise body
  | Cmd.penUp body => NoRaise body
  | _ => true

theorem run_noRaise {c : Cmd} (h : NoRaise c = true) (vec : ℚ → ℚ × ℚ)
    (s : TState) : (run vec c s).2 = false := by
  induction c generalizing s with
  | seq a b iha ihb =>
      simp only [NoRaise, Bool.and_eq_true] at h
      simp only [run]
      rw [iha h.1]
      simpa using ihb h.2 _
  | keepPos body ih => simp only [NoRaise] at h; simp [run, ih h]
  | penUp body ih => simp only [NoRaise] at h; simp [run, ih h]
  | raiseErr => simp [NoRaise] at h
  | _ => simp [run]

/-- A drawing routine that, run from any state, restores the starting
position and heading, leaves the pen down, and raises no error. -/
def IsRestoring (c : Cmd) : Prop :=
  ∀ (vec : ℚ → ℚ × ℚ) (s : TState),
    (run vec c s).1.x = s.x ∧ (run vec c s).1.y = s.y ∧
    (run vec c s).1.heading = s.heading ∧ (run vec c s).1.pen = true ∧
    (run vec c s).2 = false

theorem isRestoring_keepPos (body : Cmd) (h : NoRaise body = true) :
    IsRestoring (Cmd.keepPos body) := by
  intro vec s
  rw [run_keepPos]
  exact ⟨rfl, rfl, rfl, rfl, run_noRaise h vec s⟩

theorem isRestoring_seq {a b : Cmd} (ha : IsRestoring a) (hb : IsRestoring b) :
    IsRestoring (Cmd.seq a b) := by
  intro vec s
  obtain ⟨hax, hay, hah, hap, hae⟩ := ha vec s
  obtain ⟨hbx, hby, hbh, hbp, hbe⟩ := hb vec (run vec a s).1
  simp only [run, hae, if_false]
  exact ⟨hbx.trans hax, hby.trans hay, hbh.trans hah, hbp, hbe⟩

theorem run_seq_ok {vec : ℚ → ℚ × ℚ} {a : Cmd} {s : TState} (b : Cmd)
    (h : (run vec a s).2 = false) :
    run vec (Cmd.seq a b) s = run vec b (run vec a s).1 := by
  simp [run, h]

/-- A command built only from cursor moves and rotations (and possibly
a raising call): no nested scope, no text writing, no screen clearing. -/
def MoveOnly : Cmd → Bool
  | Cmd.skip => true
  | Cmd.seq a b => MoveOnly a && MoveOnly b
  | Cmd.goto _ _ => true
  | Cmd.setxPlus _ => true
  | Cmd.setheading _ => true
  | Cmd.forward _ => true
  | Cmd.backward _ => true
  | Cmd.circle _ => true
  | Cmd.home => true
  | Cmd.raiseErr => true
  | _ => false

/-- With the pen up, a move-only command leaves the screen untouched
and the pen up. -/
theorem run_moveOnly_pen_up {c : Cmd} (h : MoveOnly c = true)
    (vec : ℚ → ℚ × ℚ) (s : TState) (hpen : s.pen = false) :
    (run vec c s).1.screen = s.screen ∧ (run vec c s).1.pen = false := by
  induction c generalizing s with
  | seq a b iha ihb =>
      simp only [MoveOnly, Bool.and_eq_true] at h
      obtain ⟨ha1, ha2⟩ := iha h.1 s hpen
      by_cases he : (run vec a s).2 = true
      · simp only [run, he, if_true]
        exact ⟨ha1, ha2⟩
      · simp only [run, he, if_false]
        obtain ⟨hb1, hb2⟩ := ihb h.2 (run vec a s).1 ha2
        exact ⟨hb1.trans ha1, hb2⟩
  | skip => exact ⟨rfl, hpen⟩
  | goto px py => simp [run, moveTo, hpen]
  | setxPlus dx => simp [run, moveTo, hpen]
  | setheading hh => simp [run, hpen]
  | forward d => simp [run, moveTo, hpen]
  | backward d => simp [run, moveTo, hpen]
  | circle r => simp [run, hpen]
  | home => simp [run, moveTo, hpen]
  | raiseErr => exact ⟨rfl, hpen⟩
  | write str => simp [MoveOnly] at h
  | clear => simp [MoveOnly] at h
  | keepPos body _ => simp [MoveOnly] at h
  | penUp body _ => simp [MoveOnly] at h

/-- A concrete direction map for concrete evaluations: every heading
points one unit north. -/
def unitNorth : ℚ → ℚ × ℚ := fun _ => (0, 1)

/-- The turtle's starting state: at the origin, heading north, pen
down, empty screen. -/
def startState : TState :=
  { x := 0, y := 0, heading := 0, pen := true, screen := [] }

/-! ### Claim C1 -/

/-- Claim C1: for any sequence of nested `KeepPos` and `PenUp` scopes
(any body, which may itself contain checkpoints, suppressions and
raising drawing calls), the cursor's position and heading after the
outermost checkpoint scope exits equal their values immediately before
that scope was entered, and an error raised inside still propagates
(so the restoration also ran on the error path).  Each checkpoint
restores only its own snapshot: the restored values are those of `s`,
independent of whatever inner checkpoints did. -/
theorem keepPos_restores_position_and_heading
    (vec : ℚ → ℚ × ℚ) (body : Cmd) (s : TState) :
    (run vec (Cmd.keepPos body) s).1.x = s.x ∧
    (run vec (Cmd.keepPos body) s).1.y = s.y ∧
    (run vec (Cmd.keepPos body) s).1.heading = s.heading ∧
    (run vec (Cmd.keepPos body) s).2 = (run vec body s).2 := by
  rw [run_keepPos]
  exact ⟨rfl, rfl, rfl, rfl⟩

/-! ### Claim C2 -/

/-- Claim C2 counterexample: inside an outer `PenUp` scope, after an
inner `PenUp` scope is entered and exited, a cursor move DOES leave a
visible mark, because `PenUp.__exit__` puts the pen down
unconditionally.  Concretely, `with PenUp(): (with PenUp(): pass);
forward(10)` from the start state draws the segment from (0,0) to
(0,10) even though the outer suppression scope is still active. -/
theorem penUp_inner_scope_breaks_outer_suppression :
    run unitNorth (Cmd.penUp (Cmd.seq (Cmd.penUp Cmd.skip) (Cmd.forward 10)))
        startState =
      ({ x := 0, y := 10, heading := 0, pen := true,
         screen := [Mark.seg (0, 0) (0, 10)] }, false) ∧
    [Mark.seg ((0 : ℚ), (0 : ℚ)) ((0 : ℚ), (10 : ℚ))] ≠ ([] : List Mark) := by
  refine ⟨?_, by simp⟩
  simp [run, moveTo, unitNorth, startState]

/-- Claim C2 as amended: stroke suppression re-enables marking on exit
regardless of how its scope is exited (as does a checkpoint exit), and
cursor movement inside a suppression scope leaves no visible mark as
long as no inner scope has exited within it — but an inner scope's exit
re-enables marking even while an outer suppression scope is still
active, so the no-mark guarantee holds only for scope-free bodies. -/
theorem penUp_reenables_marking_and_suppresses_scope_free_moves
    (vec : ℚ → ℚ × ℚ) (body : Cmd) (s : TState) :
    (run vec (Cmd.penUp body) s).1.pen = true ∧
    (run vec (Cmd.keepPos body) s).1.pen = true ∧
    (MoveOnly body = true → (run vec (Cmd.penUp body) s).1.screen = s.screen) := by
  refine ⟨by rw [run_penUp], by rw [run_keepPos], fun h => ?_⟩
  rw [run_penUp]
  exact (run_moveOnly_pen_up h vec { s with pen := false } rfl).1

theorem penUp_reenables_marking_and_suppresses_scope_free_moves_witness :
    (run unitNorth (Cmd.penUp (Cmd.forward 10)) startState).1.pen = true ∧
    (run unitNorth (Cmd.keepPos (Cmd.forward 10)) startState).1.pen = true ∧
    (run unitNorth (Cmd.penUp (Cmd.forward 10)) startState).1.screen =
      startState.screen := by
  obtain ⟨h1, h2, h3⟩ :=
    penUp_reenables_marking_and_suppresses_scope_free_moves unitNorth
      (Cmd.forward 10) startState
  exact ⟨h1, h2, h3 rfl⟩

/-! ### Claim C4 -/

/-- Claim C4: the `UnbindTurtle` guard detaches the click handler on
entry to every `Drawing` cycle and reattaches it on every exit path —
including when a rendering primitive raises — and no click delivered
during the cycle starts a new cycle (zero re-entrant cycles begin for
every possible body).  The final two conjuncts show the click dispatch
model is not degenerate: a click does start a cycle exactly when the
handler is bound. -/
theorem unbindTurtle_blocks_reentrant_clicks
    (body : List GuiEvent) (s : GuiState) :
    (drawCycle body s).1.bound = true ∧
    (drawCycle body s).2.2 = 0 ∧
    clickStarts { bound := true } = true ∧
    clickStarts { bound := false } = false := by
  refine ⟨rfl, ?_, rfl, rfl⟩
  show (runBody body { bound := false }).2 = 0
  induction body with
  | nil => rfl
  | cons e rest ih => cases e <;> simp [runBody, clickStarts, ih]

/-! ### Claim C10 -/

/-- Claim C10: a full redraw that completes without error leaves the
cursor at the origin (0, 0) with the home heading (0) and the pen down,
for every direction map, every scenario data, and every starting state;
moreover the redraw body raises no error at all. -/
theorem draw_leaves_cursor_at_origin_pen_down
    (vec : ℚ → ℚ × ℚ) (heading_0 heading_1 : ℚ) (a_0 a_1 : Aircraft)
    (distance : ℕ) (parity_0 draw_1 : ℤ) (tri : ℚ) (s : TState) :
    (run vec (draw_prog heading_0 heading_1 a_0 a_1 distance parity_0 draw_1 tri) s).1.x = 0 ∧
    (run vec (draw_prog heading_0 heading_1 a_0 a_1 distance parity_0 draw_1 tri) s).1.y = 0 ∧
    (run vec (draw_prog heading_0 heading_1 a_0 a_1 distance parity_0 draw_1 tri) s).1.heading = 0 ∧
    (run vec (draw_prog heading_0 heading_1 a_0 a_1 distance parity_0 draw_1 tri) s).1.pen = true ∧
    (run vec (draw_prog heading_0 heading_1 a_0 a_1 distance parity_0 draw_1 tri) s).2 = false := by
  have hrest : IsRestoring
      (Cmd.seq draw_circle
        (Cmd.seq (draw_lines heading_0 heading_1)
          (Cmd.seq (place_pps a_0 a_1 distance parity_0 draw_1 tri) draw_scale))) := by
    refine isRestoring_seq (isRestoring_keepPos _ rfl)
      (isRestoring_seq ?_ (isRestoring_seq ?_ (isRestoring_keepPos _ rfl)))
    · exact isRestoring_seq (isRestoring_keepPos _ rfl) (isRestoring_keepPos _ rfl)
    · exact isRestoring_seq (isRestoring_keepPos _ rfl) (isRestoring_keepPos _ rfl)
  have herr : (run vec reset s).2 = false := by simp [reset, run]
  have hr0 : (run vec reset s).1.x = 0 ∧ (run vec reset s).1.y = 0 ∧
      (run vec reset s).1.heading = 0 := by
    refine ⟨?_, ?_, ?_⟩ <;> simp [reset, run, moveTo]
  obtain ⟨hrx, hry, hrh, hrp, hre⟩ := hrest vec (run vec reset s).1
  unfold draw_prog
  rw [run_seq_ok _ herr]
  exact ⟨hrx.trans hr0.1, hry.trans hr0.2.1, hrh.trans hr0.2.2, hrp, hre⟩

/-! ### Helper lemmas about the random draw ranges -/

theorem mem_randrange_vals {start stop step n : ℕ} :
    n ∈ randrange_vals start stop step ↔
      ∃ k, k < (stop - start + step - 1) / step ∧ start + step * k = n := by
  simp [randrange_vals]

theorem mem_randint_vals {lo hi n : ℕ} :
    n ∈ randint_vals lo hi ↔ lo ≤ n ∧ n < lo + (hi + 1 - lo) := by
  simp only [randint_vals, List.mem_map, List.mem_range]
  constructor
  · rintro ⟨k, hk, rfl⟩
    omega
  · intro h
    exact ⟨n - lo, by omega, by omega⟩

/-- The second parity is always one of the two parities, given that the
first parity and the fresh draw are. -/
theorem pps_parity_1_mem {heading_0 heading_1 : ℚ} {parity_0 draw_1 : ℤ}
    (hp : parity_0 ∈ PARITIES) (hd : draw_1 ∈ PARITIES) :
    pps_parity_1 heading_0 heading_1 parity_0 draw_1 ∈ PARITIES := by
  rw [pps_parity_1]
  split
  · split <;> simp [PARITIES]
  · exact hd

theorem parity_mul_natAbs {p : ℤ} (hp : p ∈ PARITIES) (d : ℕ) :
    (p * d).natAbs = d := by
  simp only [PARITIES, List.mem_cons, List.mem_singleton, List.not_mem_nil,
    or_false] at hp
  rcases hp with rfl | rfl <;> simp

/-! ### Claim C3 -/

/-- Claim C3: in `place_pps`, when the absolute heading gap is strictly
below `SMALLEST_SAME_HEADING_ANGLE` (30) the second parity is forced to
the opposite sign of the first; when the gap is at or above the
threshold (including exactly 30) the second parity equals the fresh
independent draw, so either target sign is reachable for the second
parity whatever the first parity is — all four sign combinations are
possible. -/
theorem pps_parity_opposite_below_threshold
    (heading_0 heading_1 : ℚ) (parity_0 draw_1 : ℤ)
    (hp : parity_0 ∈ PARITIES) (hd : draw_1 ∈ PARITIES) :
    (|heading_0 - heading_1| < SMALLEST_SAME_HEADING_ANGLE →
      pps_parity_1 heading_0 heading_1 parity_0 draw_1 = -parity_0) ∧
    (SMALLEST_SAME_HEADING_ANGLE ≤ |heading_0 - heading_1| →
      pps_parity_1 heading_0 heading_1 parity_0 draw_1 = draw_1) ∧
    (SMALLEST_SAME_HEADING_ANGLE ≤ |heading_0 - heading_1| →
      ∀ t_1 ∈ PARITIES, ∃ d ∈ PARITIES,
        pps_parity_1 heading_0 heading_1 parity_0 d = t_1) := by
  simp only [PARITIES, List.mem_cons, List.mem_singleton, List.not_mem_nil,
    or_false] at hp hd
  refine ⟨fun h => ?_, fun h => ?_, fun h t_1 ht_1 => ?_⟩
  · rw [pps_parity_1, if_pos h]
    rcases hp with rfl | rfl <;> decide
  · rw [pps_parity_1, if_neg (not_lt.mpr h)]
  · exact ⟨t_1, ht_1, by rw [pps_parity_1, if_neg (not_lt.mpr h)]⟩

theorem pps_parity_opposite_below_threshold_witness :
    pps_parity_1 10 0 1 1 = -1 ∧
    pps_parity_1 30 0 1 1 = 1 ∧
    pps_parity_1 40 0 (-1) (-1) = -1 := by
  refine ⟨?_, ?_, ?_⟩
  · exact (pps_parity_opposite_below_threshold 10 0 1 1 (by decide) (by decide)).1
      (by rw [show |(10 : ℚ) - 0| = 10 by norm_num]
          norm_num [SMALLEST_SAME_HEADING_ANGLE])
  · exact (pps_parity_opposite_below_threshold 30 0 1 1 (by decide) (by decide)).2.1
      (by rw [show |(30 : ℚ) - 0| = 30 by norm_num]
          norm_num [SMALLEST_SAME_HEADING_ANGLE])
  · exact (pps_parity_opposite_below_threshold 40 0 (-1) (-1) (by decide) (by decide)).2.1
      (by rw [show |(40 : ℚ) - 0| = 40 by norm_num]
          norm_num [SMALLEST_SAME_HEADING_ANGLE])

/-! ### Claim C5 -/

/-- Claim C5: every possible result of `random_altitudes()` is the pair
`(format3 a, format3 (a + 10))` for a multiple of ten
`a ∈ [90, 280]` — the possible `randrange(90, 290, 10)` draws — and in
particular the pair ("290", "300") is never returned. -/
theorem random_altitudes_in_range (a : ℕ)
    (ha : a ∈ randrange_vals ALTITUDE_RANGE.1 ALTITUDE_RANGE.2 10) :
    90 ≤ a ∧ a ≤ 280 ∧ a % 10 = 0 ∧
    random_altitudes a = (pyFormat 3 a, pyFormat 3 (a + 10)) ∧
    random_altitudes a ≠ ("290", "300") := by
  norm_num [ALTITUDE_RANGE] at ha
  obtain ⟨k, hk, rfl⟩ := mem_randrange_vals.mp ha
  norm_num at hk
  refine ⟨by omega, by omega, by omega, rfl, ?_⟩
  interval_cases k <;> decide

theorem random_altitudes_in_range_witness :
    90 ≤ 90 ∧ 90 ≤ 280 ∧ 90 % 10 = 0 ∧
    random_altitudes 90 = (pyFormat 3 90, pyFormat 3 (90 + 10)) ∧
    random_altitudes 90 ≠ ("290", "300") :=
  random_altitudes_in_range 90 (by decide)

/-! ### Claim C8 -/

/-- Claim C8: a single radial distance is drawn from `randint(40, 170)`
and both glyph offsets `modified_distance = parity * distance` have that
same scalar magnitude, differing only in sign: the first offset has
magnitude `distance` and so does the second, whose parity comes from
the anti-collision rule. -/
theorem place_pps_same_distance_magnitude
    (heading_0 heading_1 : ℚ) (parity_0 draw_1 : ℤ) (distance : ℕ)
    (hdist : distance ∈ randint_vals 40 170)
    (hp : parity_0 ∈ PARITIES) (hd : draw_1 ∈ PARITIES) :
    40 ≤ distance ∧ distance ≤ 170 ∧
    (modified_distance parity_0 distance).natAbs = distance ∧
    (modified_distance (pps_parity_1 heading_0 heading_1 parity_0 draw_1)
        distance).natAbs = distance := by
  obtain ⟨h1, h2⟩ := mem_randint_vals.mp hdist
  refine ⟨by omega, by omega, ?_, ?_⟩
  · exact parity_mul_natAbs hp distance
  · exact parity_mul_natAbs (pps_parity_1_mem hp hd) distance

theorem place_pps_same_distance_magnitude_witness :
    40 ≤ 40 ∧ 40 ≤ 170 ∧
    (modified_distance 1 40).natAbs = 40 ∧
    (modified_distance (pps_parity_1 0 0 1 1) 40).natAbs = 40 :=
  place_pps_same_distance_magnitude 0 0 1 1 40
    (mem_randint_vals.mpr (by omega)) (by decide) (by decide)

/-! ### Claim C9 -/

/-- Claim C9: the generated pair binds `heading_0` to the first
aircraft and `heading_1` to the second, both share the fixed speed
constant 25, the first aircraft receives the lower altitude band
`format3 a` and the second the adjacent band `format3 (a + 10)`, and
the two altitude strings are distinct. -/
theorem generate_aircraft_pair_bindings
    (heading_0 heading_1 : ℚ) (acid_0 acid_1 ty_0 ty_1 : String) (a : ℕ)
    (ha : a ∈ randrange_vals ALTITUDE_RANGE.1 ALTITUDE_RANGE.2 10) :
    (generate_aircraft heading_0 heading_1 acid_0 acid_1 ty_0 ty_1 a).1.heading = heading_0 ∧
    (generate_aircraft heading_0 heading_1 acid_0 acid_1 ty_0 ty_1 a).2.heading = heading_1 ∧
    (generate_aircraft heading_0 heading_1 acid_0 acid_1 ty_0 ty_1 a).1.speed = 25 ∧
    (generate_aircraft heading_0 heading_1 acid_0 acid_1 ty_0 ty_1 a).2.speed = 25 ∧
    (generate_aircraft heading_0 heading_1 acid_0 acid_1 ty_0 ty_1 a).1.altitude = pyFormat 3 a ∧
    (generate_aircraft heading_0 heading_1 acid_0 acid_1 ty_0 ty_1 a).2.altitude = pyFormat 3 (a + 10) ∧
    90 ≤ a ∧ a + 10 ≤ 290 ∧
    (generate_aircraft heading_0 heading_1 acid_0 acid_1 ty_0 ty_1 a).1.altitude ≠
      (generate_aircraft heading_0 heading_1 acid_0 acid_1 ty_0 ty_1 a).2.altitude := by
  norm_num [ALTITUDE_RANGE] at ha
  obtain ⟨k, hk, rfl⟩ := mem_randrange_vals.mp ha
  norm_num at hk
  refine ⟨rfl, rfl, rfl, rfl, rfl, rfl, by omega, by omega, ?_⟩
  show pyFormat 3 (90 + 10 * k) ≠ pyFormat 3 (90 + 10 * k + 10)
  interval_cases k <;> decide

theorem generate_aircraft_pair_bindings_witness :
    (generate_aircraft 0 90 "ACA100" "BAW200" "A320" "B747" 90).1.altitude ≠
      (generate_aircraft 0 90 "ACA100" "BAW200" "A320" "B747" 90).2.altitude :=
  (generate_aircraft_pair_bindings 0 90 "ACA100" "BAW200" "A320" "B747" 90
    (by decide)).2.2.2.2.2.2.2.2

/-! ### Claim C6 -/

theorem pyFormat_length {w n : ℕ} (hw : 0 < w) (h : n < 10 ^ w) :
    (pyFormat w n).length = w := by
  have hr : (toString n).length ≤ w := Nat.repr_length n w hw h
  simp only [pyFormat, String.length_append]
  have hm : (String.mk (List.replicate (w - (toString n).length) '0')).length
      = w - (toString n).length := by
    show (List.replicate (w - (toString n).length) '0').length = _
    simp
  rw [hm]
  omega

/-- Claim C6 counterexample: the four-digit branch of `random_acid`
formats `random.randint(0000, 9999)`, whose lower bound is 0, not 1000;
at draw 0 the identifier is "ACA0000", whose flight number 0 lies
outside the claimed range 1000-9999.  Likewise the other branch formats
`random.randint(000, 999)`, whose lower bound is 0, not 100. -/
theorem random_acid_four_digit_branch_reaches_zero :
    "ACA" ∈ CALLSIGNS ∧
    0 ∈ randint_vals 0 9999 ∧
    random_acid "ACA" true 0 = "ACA0000" ∧
    ¬ (1000 ≤ (0 : ℕ)) ∧
    0 ∈ randint_vals 0 999 ∧
    random_acid "ACA" false 0 = "ACA000" ∧
    ¬ (100 ≤ (0 : ℕ)) := by
  refine ⟨by decide, mem_randint_vals.mpr (by omega), by decide, by omega,
    mem_randint_vals.mpr (by omega), by decide, by omega⟩

/-- Claim C6 as amended: every identifier is a callsign from the fixed
set concatenated with a flight number rendered zero-padded to width 4
(the branch taken with the configured low probability, with the number
drawn from `randint(0, 9999)`) or to width 3 (otherwise, with the
number drawn from `randint(0, 999)`); the identifier is accordingly 7
or 6 characters long. -/
theorem random_acid_structure
    (callsign : String) (hc : callsign ∈ CALLSIGNS) (four : Bool) (n : ℕ)
    (hn : n ∈ randint_vals 0 (if four then 9999 else 999)) :
    random_acid callsign four n =
      callsign ++ pyFormat (if four then 4 else 3) n ∧
    n ≤ (if four then 9999 else 999) ∧
    (random_acid callsign four n).length = 3 + (if four then 4 else 3) := by
  have hc3 : callsign.length = 3 := by fin_cases hc <;> rfl
  have hn' : n ≤ (if four then 9999 else 999) := by
    have := mem_randint_vals.mp hn
    cases four <;> simp_all <;> omega
  cases four with
  | true =>
      refine ⟨rfl, hn', ?_⟩
      show (callsign ++ pyFormat 4 n).length = 3 + 4
      rw [String.length_append, hc3, pyFormat_length (by norm_num)
        (by simp at hn'; omega)]
  | false =>
      refine ⟨rfl, hn', ?_⟩
      show (callsign ++ pyFormat 3 n).length = 3 + 3
      rw [String.length_append, hc3, pyFormat_length (by norm_num)
        (by simp at hn'; omega)]

theorem random_acid_structure_witness :
    random_acid "ACA" true 42 = "ACA" ++ pyFormat 4 42 ∧
    42 ≤ 9999 ∧
    (random_acid "ACA" true 42).length = 3 + 4 :=
  random_acid_structure "ACA" (by decide) true 42
    (mem_randint_vals.mpr ⟨by omega, by norm_num⟩)

/-! ### Claim C7 -/

/-- Claim C7 (supporting theorem for the code bug): the heading pair
(0, 179.9) lies within `HEADING_RANGE`, its gap 179.9 is at or above
`SMALLEST_SAME_HEADING_ANGLE`, so `place_pps` takes the independent
branch and the fresh draw may legally hand the second glyph the parity
opposite to the first (here parity_0 = 1, draw = -1, so parity_1 = -1).
But heading 179.9 points almost exactly opposite heading 0, so the two
radial lines nearly coincide, and opposite parities at the same radial
distance put the two glyphs almost at the same point — the
anti-collision rule only inspects gaps below 30 and misses
nearly-opposite headings. -/
theorem place_pps_wide_gap_escapes_anti_collision :
    (0 : ℚ) ≤ HEADING_RANGE.2 ∧
    (1799 / 10 : ℚ) ≤ HEADING_RANGE.2 ∧
    SMALLEST_SAME_HEADING_ANGLE ≤ |(0 : ℚ) - 1799 / 10| ∧
    pps_parity_1 0 (1799 / 10) 1 (-1) = -1 ∧
    (1 : ℤ) ∈ PARITIES ∧ (-1 : ℤ) ∈ PARITIES := by
  have habs : |(0 : ℚ) - 1799 / 10| = 1799 / 10 := by
    rw [zero_sub, abs_neg]
    exact abs_of_nonneg (by norm_num)
  refine ⟨by norm_num [HEADING_RANGE], by norm_num [HEADING_RANGE], ?_, ?_,
    by decide, by decide⟩
  · rw [habs]
    norm_num [SMALLEST_SAME_HEADING_ANGLE]
  · rw [pps_parity_1, if_neg]
    rw [habs]
    norm_num [SMALLEST_SAME_HEADING_ANGLE]

end Traffic
